import Mathlib

/-!
Verification of the GFS/GDAS subsetting and template-matching engine of
`ai-models-modal/main.py` (function `prepare_gfs_analysis` and its callers).

Times are modelled as minutes since an abstract epoch (`Int`); a calendar date
is the abstract day number `t / 1440` and a "data time" (HHMM in the source)
is abstracted as the injective minutes-of-day encoding `t % 1440`.  GRIB
messages are modelled as records of the metadata keys the engine consults,
plus an opaque serialized payload (the result of `grb.tostring()`).
-/

/-- Add a whole number of hours to a time expressed in minutes
(`datetime.timedelta(hours=h)` arithmetic). -/
def addHours (t h : Int) : Int := t + 60 * h

/-- Abstract calendar date of a time: the day number.  Stands for the
injective `strftime("%Y%m%d")` encoding in the source. -/
def dateOf (t : Int) : Int := t.fdiv 1440

/-- Abstract hour-minute of day of a time.  Stands for the injective
`strftime("%H%M")` encoding in the source. -/
def timeOf (t : Int) : Int := t.emod 1440

/-- One GRIB message: the identity metadata keys the engine consults
(shortName, level, levelType), the temporal validity keys the rewriter sets,
and the opaque serialized payload returned by `tostring()`. -/
structure Message where
  shortName : String
  level : Int
  levelType : String
  validityDate : Int
  validityTime : Int
  payload : List Nat
deriving DecidableEq

/-- One template catalog entry: the non-temporal identity metadata of a
template message (spec section 4.2: temporal keys are never fixed by the
template). -/
structure Descriptor where
  shortName : String
  level : Int
  levelType : String
deriving DecidableEq

/-- The descriptor derived from a template message: its non-temporal
identity metadata. -/
def descriptorOf (m : Message) : Descriptor :=
  { shortName := m.shortName, level := m.level, levelType := m.levelType }

/-- A per-key override rule: a literal value or a predicate, replacing the
default equality constraint for that key (spec sections 3 and 9: model the
override mechanism as a tagged variant, Literal or Predicate). -/
inductive Override where
  | lit (v : String)
  | pred (f : String → Bool)

/-- Apply an override rule to a metadata value: literal equality or
predicate evaluation. -/
def applyOverride : Override → String → Bool
  | .lit v, x => x == v
  | .pred p, x => p x

/-- The `extra_template_matchers` dictionary built in
`prepare_gfs_analysis` (main.py lines 134-138 and 153-157): a dataDate
entry, a dataTime entry, and a shortName override (predicate or literal). -/
structure TemplateMatchers where
  dataDate : Int
  dataTime : Int
  shortName : Override

/-- Typed match errors of the engine (spec section 7): zero matches or more
than one match for a descriptor, each carrying the offending descriptor. -/
inductive MatchErr where
  | noMatch (d : Descriptor)
  | ambiguousMatch (d : Descriptor)
deriving DecidableEq

/-- Modelled from the spec: coverage of a descriptor by a message set
(spec section 4.5, "for every TemplateDescriptor the set is configured to
cover").  The code for this lives in `gfs.process_gdas_grib`, which is not
part of this repository snapshot; per spec sections 4.3 and 4.5 and
Scenario B, a set covers exactly the descriptors whose own identity
satisfies its shortName override (a not-equal predicate on "tp" covers the
non-precipitation descriptors, the literal "tp" covers precipitation), and
a set with no overrides covers the whole template.  The dataDate and
dataTime entries constrain no descriptor key (spec section 4.2: descriptors
carry only non-temporal identity). -/
def covers (mo : Option TemplateMatchers) (d : Descriptor) : Bool :=
  match mo with
  | none => true
  | some ms => applyOverride ms.shortName d.shortName

/-- Modelled from the spec: the per-key constraint set of the Matcher
(spec section 4.3).  For each metadata key in the descriptor: if an
override exists for that key, apply it (literal equality or predicate
evaluation); otherwise require equality with the descriptor's own value.
Only shortName is ever overridden by the source (main.py lines 134-157);
level and levelType always use descriptor equality. -/
def constraintHolds (mo : Option TemplateMatchers) (d : Descriptor) (m : Message) : Bool :=
  (match mo with
    | none => m.shortName == d.shortName
    | some ms => applyOverride ms.shortName m.shortName)
  && m.level == d.level && m.levelType == d.levelType

/-- Modelled from the spec: `match(descriptor, store, overrides)` selects
exactly one message satisfying every constraint (spec section 4.3); zero
matches is `NoMatchError` and more than one is `AmbiguousMatchError`, each
naming the descriptor. -/
def matchMsg (d : Descriptor) (store : List Message) (mo : Option TemplateMatchers) :
    Except MatchErr Message :=
  match store.filter (fun m => constraintHolds mo d m) with
  | [] => .error (.noMatch d)
  | [m] => .ok m
  | _ :: _ :: _ => .error (.ambiguousMatch d)

/-- Modelled from the spec: the Time-Offset Rewriter (spec section 4.4):
set validity-date and validity-time to the target time's date and
hour-minute; all other keys untouched. -/
def rewrite (m : Message) (target : Int) : Message :=
  { m with validityDate := dateOf target, validityTime := timeOf target }

/-- Modelled from the spec: `gfs.process_gdas_grib(template, source,
target_time, extra_template_matchers)` (called from main.py lines 114,
139 and 158; its body is not part of this repository snapshot).  Per spec
sections 4.3-4.5: walk the template in order; for every descriptor the
matchers cover, select exactly one message from the store and rewrite its
temporal metadata to the target time; propagate the first match error. -/
def process_gdas_grib (tmpl : List Message) (store : List Message) (target : Int)
    (mo : Option TemplateMatchers) : Except MatchErr (List Message) :=
  match tmpl with
  | [] => .ok []
  | t :: rest =>
    if covers mo (descriptorOf t) then
      match matchMsg (descriptorOf t) store mo with
      | .error e => .error e
      | .ok m =>
        match process_gdas_grib rest store target mo with
        | .error e => .error e
        | .ok out => .ok (rewrite m target :: out)
    else process_gdas_grib rest store target mo

/-- A caller-declared message set (spec section 3): a decoded source store,
a time offset in hours, and the per-call overrides (the
`extra_template_matchers` argument; `none` for the single-source call at
main.py line 114). -/
structure MessageSet where
  store : List Message
  offsetHours : Int
  overrides : Option TemplateMatchers

/-- The subset-assembly loop of `prepare_gfs_analysis` (main.py lines
106-164), generalized over a list of message sets exactly as the source
loops do: per set, in declared order, run `process_gdas_grib` against that
set's store with the set's time offset and overrides, and extend the
accumulated output (`subset_grbs.extend(output_msgs)`).  The source
performs no coverage validation across sets. -/
def assemble (tmpl : List Message) (sets : List MessageSet) (init : Int) :
    Except MatchErr (List Message) :=
  match sets with
  | [] => .ok []
  | s :: rest =>
    match process_gdas_grib tmpl s.store (addHours init s.offsetHours) s.overrides with
    | .error e => .error e
    | .ok out =>
      match assemble tmpl rest init with
      | .error e => .error e
      | .ok outRest => .ok (out ++ outRest)

/-- Number of template descriptors a given overrides value covers. -/
def countCovered (tmpl : List Message) (mo : Option TemplateMatchers) : Nat :=
  (tmpl.filter (fun t => covers mo (descriptorOf t))).length

/-- Number of sets of a configuration that cover a given descriptor. -/
def coverCount (sets : List MessageSet) (d : Descriptor) : Nat :=
  (sets.filter (fun s => covers s.overrides d)).length

/-- Time deltas of the files downloaded per model (main.py lines 74-93):
one zero delta for panguweather and fourcastnetv2-small, the zero and
minus-six-hour deltas for graphcast, and a ValueError for any other model
name.  Python `match`/`case` on strings is equality testing in order. -/
def model_init_tds (model : String) : Except String (List Int) :=
  if model = "panguweather" ∨ model = "fourcastnetv2-small" then .ok [0]
  else if model = "graphcast" then .ok [0, -6]
  else .error ("Encountered unknown model " ++ model)

/-- The times of the source analyses fetched for a run: the model epoch
shifted by each configured delta (main.py lines 79-81 and 89-91,
`gfs.make_gfs_ics_blob_name(model_init + td)`). -/
def sourceTimes (model : String) (init : Int) : Except String (List Int) :=
  (model_init_tds model).map (fun tds => tds.map (fun td => addHours init td))

/-- Set 1 time deltas for graphcast: the 0- and 6-hr lagged core-field
messages (main.py line 122). -/
def template_tds : List Int := [0, -6]

/-- Set 2 (precipitation) time deltas for graphcast: the 6- and 18-hr
offsets used for the 0- and 6-hr lagged messages (main.py lines 125-128). -/
def tp_template_tds : List Int := [-6, -18]

/-- The `extra_template_matchers` dictionary of graphcast Set 1 (core
fields), built at main.py lines 133-138 from the template epoch shifted by
the set's delta: a dataDate entry, a dataTime entry, and a shortName
predicate excluding "tp". -/
def coreFieldMatchers (epoch td : Int) : TemplateMatchers :=
  { dataDate := dateOf (addHours epoch td)
    dataTime := timeOf (addHours epoch td)
    shortName := Override.pred (fun x => x != "tp") }

/-- The `extra_template_matchers` dictionary of graphcast Set 2
(precipitation), built at main.py lines 152-157: a dataDate entry, a
dataTime entry, and the literal shortName "tp". -/
def tpFieldMatchers (epoch td : Int) : TemplateMatchers :=
  { dataDate := dateOf (addHours epoch td)
    dataTime := timeOf (addHours epoch td)
    shortName := Override.lit "tp" }

/-- Graphcast Set 1, the core-field message sets: the downloaded sources
zipped with `template_tds` (main.py line 131, `zip(source_fns,
template_tds)`), each with the core-field matchers for its delta. -/
def graphcastCoreSets (sources : List (List Message)) (epoch : Int) : List MessageSet :=
  (sources.zip template_tds).map
    (fun p => { store := p.1, offsetHours := p.2, overrides := some (coreFieldMatchers epoch p.2) })

/-- Graphcast Set 2, the precipitation message sets: the downloaded sources
zipped with `tp_template_tds` (main.py line 150), each with the literal
"tp" matchers for its delta. -/
def graphcastTpSets (sources : List (List Message)) (epoch : Int) : List MessageSet :=
  (sources.zip tp_template_tds).map
    (fun p => { store := p.1, offsetHours := p.2, overrides := some (tpFieldMatchers epoch p.2) })

/-- The graphcast subsetting pass of main.py lines 115-164: the core-field
sets followed by the precipitation sets, accumulated into one
`subset_grbs` list in that declared order. -/
def graphcastSubset (tmpl : List Message) (sources : List (List Message)) (init epoch : Int) :
    Except MatchErr (List Message) :=
  assemble tmpl (graphcastCoreSets sources epoch ++ graphcastTpSets sources epoch) init

/-- The per-model subsetting configuration of main.py lines 108-166: the
single-source models use the one downloaded file (`source_fns[0]`) with
zero offset and no extra matchers; graphcast uses the core-field sets
followed by the precipitation sets; any other name is a ValueError. -/
def subsetCalls (model : String) (sources : List (List Message)) (epoch : Int) :
    Except String (List MessageSet) :=
  if model = "panguweather" ∨ model = "fourcastnetv2-small" then
    .ok [{ store := sources.headD [], offsetHours := 0, overrides := none }]
  else if model = "graphcast" then
    .ok (graphcastCoreSets sources epoch ++ graphcastTpSets sources epoch)
  else .error ("Encountered unknown model " ++ model)

/-- The output-serializer loop of main.py lines 176-183: for each assembled
message in sequence order, append `grb.tostring()` to the file; no
separators, no padding. -/
def writeAll (msgs : List Message) : List Nat :=
  match msgs with
  | [] => []
  | g :: rest => g.payload ++ writeAll rest

/-- Primitive filesystem operations, to model the publication step of
main.py lines 168-189 as an operation trace. -/
inductive FileOp where
  | write (path : String) (bytes : List Nat)
  | copy (src dst : String)
  | fsync (path : String)
  | rename (src dst : String)
  | remove (path : String)
deriving DecidableEq

/-- Whether an operation is a plain write or a copy (as opposed to an
fsync, a rename, or a removal). -/
def FileOp.isWriteOrCopy : FileOp → Bool
  | .write _ _ => true
  | .copy _ _ => true
  | _ => false

/-- The operation trace of the publication step (main.py lines 168-189):
one append per assembled message to the local working file
(`open(proc_gdas_fn, "wb")` then `f.write(grb.tostring())` in sequence),
followed by a single `shutil.copy` of the working file to the final cached
path.  No fsync, no rename, no removal of partial output appears. -/
def publishOps (working final : String) (msgs : List Message) : List FileOp :=
  msgs.map (fun g => FileOp.write working g.payload) ++ [FileOp.copy working final]

/-- Effect of one operation on a filesystem modelled as contents per path
(a write appends; a copy replaces the destination with the source
contents; a rename moves; a removal empties). -/
def applyOp (fs : String → List Nat) (op : FileOp) : String → List Nat :=
  match op with
  | .write p bs => fun q => if q = p then fs p ++ bs else fs q
  | .copy src dst => fun q => if q = dst then fs src else fs q
  | .fsync _ => fs
  | .rename src dst => fun q => if q = dst then fs src else if q = src then [] else fs q
  | .remove p => fun q => if q = p then [] else fs q

/-- Effect of an operation sequence on a filesystem, first operation
first. -/
def applyOps (fs : String → List Nat) : List FileOp → (String → List Nat)
  | [] => fs
  | op :: rest => applyOps (applyOp fs op) rest

/-- Outcomes of `prepare_gfs_analysis` (main.py lines 26-193): the
short-circuit return, normal completion, the ValueError for a missing
template (line 50), the ValueError for an unknown model name (lines 93 and
166), and a propagated match failure from subsetting. -/
inductive PrepOutcome where
  | skipped
  | completed
  | templateMissing
  | unknownModel
  | matchFailure (e : MatchErr)
deriving DecidableEq

/-- Units of download / decode-match / write work performed by one
invocation of `prepare_gfs_analysis`: blobs downloaded, subsetting passes
run (`process_gdas_grib` invocations), messages written to the working
file, and copies to the final cached path. -/
structure PrepWork where
  downloads : Nat
  decodeMatchRuns : Nat
  workingWrites : Nat
  finalCopies : Nat
deriving DecidableEq

/-- The all-zero work record: no download, decode, match, or write work. -/
def noWork : PrepWork :=
  { downloads := 0, decodeMatchRuns := 0, workingWrites := 0, finalCopies := 0 }

/-- The filesystem state `prepare_gfs_analysis` consults and updates: the
template file for the model, the per-init base directory, and the final
processed output file with its contents. -/
structure PrepState where
  templateExists : Bool
  baseDirExists : Bool
  outputExists : Bool
  outputContent : List Nat
deriving DecidableEq

/-- The control flow of `prepare_gfs_analysis` (main.py lines 26-193), with
the downloaded stores abstracted as a function from analysis time to
decoded store.  In source order: the template existence check (line 49,
ValueError if absent); `mkdir(parents=True, exist_ok=True)` on the base
directory (line 55); the short-circuit on an existing output when `force`
is false (lines 61-66); the per-model download plan (lines 74-93, ValueError
for an unknown name, before any download); the downloads (lines 96-104,
modelled as always succeeding); the subsetting passes (lines 108-166); the
serialization to the working file and the copy to the final cached path
(lines 168-189).  Credential loading (line 68) touches no modelled state. -/
def prepare_gfs_analysis (model : String) (init : Int) (force : Bool)
    (tmpl : List Message) (storeOf : Int → List Message) (epoch : Int)
    (st : PrepState) : PrepOutcome × PrepWork × PrepState :=
  if !st.templateExists then (.templateMissing, noWork, st)
  else
    let st1 : PrepState := { st with baseDirExists := true }
    if st.outputExists && !force then (.skipped, noWork, st1)
    else
      match model_init_tds model with
      | .error _ => (.unknownModel, noWork, st1)
      | .ok tds =>
        let sources := tds.map (fun td => storeOf (addHours init td))
        match subsetCalls model sources epoch with
        | .error _ => (.unknownModel, { noWork with downloads := tds.length }, st1)
        | .ok calls =>
          match assemble tmpl calls init with
          | .error e =>
            (.matchFailure e,
             { noWork with downloads := tds.length, decodeMatchRuns := calls.length }, st1)
          | .ok msgs =>
            (.completed,
             { downloads := tds.length, decodeMatchRuns := calls.length,
               workingWrites := msgs.length, finalCopies := 1 },
             { st1 with outputExists := true, outputContent := writeAll msgs })

/-- Modelled from the spec: `ai_models_shim.SUPPORTED_AI_MODELS`, whose
definition is not part of this repository snapshot; per the entrypoint
docstring (main.py lines 611-612) the supported models are panguweather,
fourcastnetv2-small and graphcast. -/
def SUPPORTED_AI_MODELS : List String :=
  ["panguweather", "fourcastnetv2-small", "graphcast"]

/-- The remote invocations the local entrypoint can dispatch (main.py lines
632-643). -/
inductive RemoteCall where
  | makeTemplate
  | checkAssets
  | generateForecast
deriving DecidableEq

/-- The local entrypoint `main` (main.py lines 597-643): reject a model
name outside `SUPPORTED_AI_MODELS` with a ValueError before dispatching any
remote call; otherwise dispatch the enabled remote calls in source order. -/
def mainEntry (model : String) (makeTemplate runChecks runForecast : Bool) :
    Except String (List RemoteCall) :=
  if !(SUPPORTED_AI_MODELS.contains model) then
    .error ("User provided model_name " ++ model ++ " is not supported")
  else
    .ok ((if makeTemplate then [RemoteCall.makeTemplate] else [])
      ++ (if runChecks then [RemoteCall.checkAssets] else [])
      ++ (if runForecast then [RemoteCall.generateForecast] else []))

/-- The lead-time handling of `AIModel.__init__` (main.py lines 282-290):
if the requested lead time exceeds the configured maximum, store the
maximum and flag a warning; otherwise store the request unchanged.  The
maximum (`config.MAX_FCST_LEAD_TIME`, not part of this repository snapshot)
is passed as a parameter. -/
def aimodelStoredLeadTime (maxLead leadTime : Int) : Int × Bool :=
  if leadTime > maxLead then (maxLead, true) else (leadTime, false)

/-- Concrete test template for the graphcast scenario: five core fields at
pairwise distinct levels plus accumulated precipitation. -/
def scenTemplate : List Message :=
  [{ shortName := "u", level := 500, levelType := "pl",
     validityDate := 0, validityTime := 0, payload := [] },
   { shortName := "v", level := 850, levelType := "pl",
     validityDate := 0, validityTime := 0, payload := [] },
   { shortName := "t", level := 1000, levelType := "pl",
     validityDate := 0, validityTime := 0, payload := [] },
   { shortName := "q", level := 700, levelType := "pl",
     validityDate := 0, validityTime := 0, payload := [] },
   { shortName := "z", level := 300, levelType := "pl",
     validityDate := 0, validityTime := 0, payload := [] },
   { shortName := "tp", level := 0, levelType := "sfc",
     validityDate := 0, validityTime := 0, payload := [] }]

/-- Concrete source store: one message per template field, with payloads
tagged by the given store number. -/
def scenStore (tag : Nat) : List Message :=
  [{ shortName := "u", level := 500, levelType := "pl",
     validityDate := 9, validityTime := 9, payload := [tag, 1] },
   { shortName := "v", level := 850, levelType := "pl",
     validityDate := 9, validityTime := 9, payload := [tag, 2] },
   { shortName := "t", level := 1000, levelType := "pl",
     validityDate := 9, validityTime := 9, payload := [tag, 3] },
   { shortName := "q", level := 700, levelType := "pl",
     validityDate := 9, validityTime := 9, payload := [tag, 4] },
   { shortName := "z", level := 300, levelType := "pl",
     validityDate := 9, validityTime := 9, payload := [tag, 5] },
   { shortName := "tp", level := 0, levelType := "sfc",
     validityDate := 9, validityTime := 9, payload := [tag, 6] }]

theorem writeAll_eq_join (msgs : List Message) :
    writeAll msgs = List.flatten (msgs.map Message.payload) := by
  induction msgs with
  | nil => rfl
  | cons g rest ih => simp [writeAll, ih]

theorem writeAll_length (msgs : List Message) :
    (writeAll msgs).length = (msgs.map (fun g => g.payload.length)).sum := by
  induction msgs with
  | nil => rfl
  | cons g rest ih => simp [writeAll, ih]

/-- C5: the output serializer writes the assembled messages in sequence
order, each message's serialization occupying a contiguous byte range with
no separators; the output file length equals the sum of the individual
serialized message lengths, with no padding. -/
theorem serializer_contiguous_concat (msgs : List Message) :
    writeAll msgs = List.flatten (msgs.map Message.payload)
    ∧ (writeAll msgs).length = (msgs.map (fun g => g.payload.length)).sum :=
  ⟨writeAll_eq_join msgs, writeAll_length msgs⟩

/-- C9: after AIModel construction the stored forecast lead time never
exceeds the configured maximum: a request above the maximum is clamped to
the maximum with the warning flag set (not an error), and any other
request is stored unchanged. -/
theorem lead_time_clamped (maxLead leadTime : Int) :
    (aimodelStoredLeadTime maxLead leadTime).1 ≤ maxLead
    ∧ (leadTime > maxLead → aimodelStoredLeadTime maxLead leadTime = (maxLead, true))
    ∧ (leadTime ≤ maxLead → aimodelStoredLeadTime maxLead leadTime = (leadTime, false)) := by
  refine ⟨?_, ?_, ?_⟩
  · by_cases h : leadTime > maxLead
    · simp [aimodelStoredLeadTime, h]
    · simp [aimodelStoredLeadTime, h]
      omega
  · intro h; simp [aimodelStoredLeadTime, h]
  · intro h; simp [aimodelStoredLeadTime]; omega

theorem lead_time_clamped_witness :
    aimodelStoredLeadTime 240 300 = (240, true) ∧ aimodelStoredLeadTime 240 12 = (12, false) :=
  ⟨(lead_time_clamped 240 300).2.1 (by decide), (lead_time_clamped 240 12).2.2 (by decide)⟩

/-- C3: with the not-equal predicate override on shortName (the core-field
matchers), no message whose shortName is "tp" satisfies the resulting
constraint set, for every descriptor and every store; and with the literal
override "tp" (the precipitation matchers), the constraint set is
satisfied only by messages whose shortName equals "tp". -/
theorem override_constraint_semantics (epoch td : Int) (d : Descriptor) (m : Message)
    (store : List Message) :
    (m.shortName = "tp" →
      constraintHolds (some (coreFieldMatchers epoch td)) d m = false
      ∧ m ∉ store.filter (fun x => constraintHolds (some (coreFieldMatchers epoch td)) d x))
    ∧ (constraintHolds (some (tpFieldMatchers epoch td)) d m = true → m.shortName = "tp") := by
  constructor
  · intro htp
    have hc : constraintHolds (some (coreFieldMatchers epoch td)) d m = false := by
      simp [constraintHolds, coreFieldMatchers, applyOverride, htp]
    refine ⟨hc, ?_⟩
    intro hmem
    have := List.of_mem_filter hmem
    rw [hc] at this
    exact absurd this (by simp)
  · intro h
    simp only [constraintHolds, tpFieldMatchers, applyOverride, Bool.and_eq_true,
      beq_iff_eq] at h
    exact h.1.1

theorem override_constraint_semantics_witness :
    let tpMsg : Message :=
      { shortName := "tp", level := 0, levelType := "sfc",
        validityDate := 9, validityTime := 9, payload := [1, 6] }
    let d : Descriptor := { shortName := "u", level := 500, levelType := "pl" }
    constraintHolds (some (coreFieldMatchers 0 0)) d tpMsg = false
    ∧ tpMsg ∉ (scenStore 1).filter (fun x => constraintHolds (some (coreFieldMatchers 0 0)) d x)
    ∧ (constraintHolds (some (tpFieldMatchers 0 0)) d tpMsg = true → tpMsg.shortName = "tp") :=
  ⟨((override_constraint_semantics 0 0
      { shortName := "u", level := 500, levelType := "pl" }
      { shortName := "tp", level := 0, levelType := "sfc",
        validityDate := 9, validityTime := 9, payload := [1, 6] }
      (scenStore 1)).1 rfl).1,
   ((override_constraint_semantics 0 0
      { shortName := "u", level := 500, levelType := "pl" }
      { shortName := "tp", level := 0, levelType := "sfc",
        validityDate := 9, validityTime := 9, payload := [1, 6] }
      (scenStore 1)).1 rfl).2,
   (override_constraint_semantics 0 0
      { shortName := "u", level := 500, levelType := "pl" }
      { shortName := "tp", level := 0, levelType := "sfc",
        validityDate := 9, validityTime := 9, payload := [1, 6] }
      (scenStore 1)).2⟩

theorem process_gdas_grib_tags (tmpl store : List Message) (target : Int)
    (mo : Option TemplateMatchers) (out : List Message)
    (h : process_gdas_grib tmpl store target mo = .ok out) :
    ∀ m ∈ out, m.validityDate = dateOf target ∧ m.validityTime = timeOf target := by
  induction tmpl generalizing out with
  | nil =>
    simp only [process_gdas_grib, Except.ok.injEq] at h
    subst h
    intro m hm
    exact absurd hm (List.not_mem_nil m)
  | cons t rest ih =>
    simp only [process_gdas_grib] at h
    by_cases hc : covers mo (descriptorOf t) = true
    · rw [if_pos hc] at h
      cases hm : matchMsg (descriptorOf t) store mo with
      | error e => rw [hm] at h; exact absurd h (by simp)
      | ok m =>
        rw [hm] at h
        cases hr : process_gdas_grib rest store target mo with
        | error e => rw [hr] at h; exact absurd h (by simp)
        | ok out2 =>
          rw [hr] at h
          simp only [Except.ok.injEq] at h
          subst h
          intro x hx
          rcases List.mem_cons.mp hx with hx | hx
          · subst hx
            exact ⟨rfl, rfl⟩
          · exact ih out2 hr x hx
    · rw [if_neg hc] at h
      exact ih out h

/-- C1: for graphcast, the assembly policy uses exactly the offsets 0h and
-6h for the core-field message sets and exactly the distinct offsets -6h
and -18h for the precipitation message sets; the core sets exclude
shortName "tp" via a predicate override and the precipitation sets select
shortName "tp" via a literal override; and every message matched under a
set's matchers is time-tagged with model_init plus that set's offset. -/
theorem graphcast_lagged_policy (s1 s2 : List Message) (epoch init : Int)
    (tmpl store : List Message) :
    ((graphcastCoreSets [s1, s2] epoch).map MessageSet.offsetHours = [0, -6]
      ∧ (graphcastTpSets [s1, s2] epoch).map MessageSet.offsetHours = [-6, -18])
    ∧ ((graphcastCoreSets [s1, s2] epoch).map MessageSet.overrides
        = [some (coreFieldMatchers epoch 0), some (coreFieldMatchers epoch (-6))]
      ∧ (graphcastTpSets [s1, s2] epoch).map MessageSet.overrides
        = [some (tpFieldMatchers epoch (-6)), some (tpFieldMatchers epoch (-18))])
    ∧ (∀ td, (coreFieldMatchers epoch td).shortName = Override.pred (fun x => x != "tp")
      ∧ (tpFieldMatchers epoch td).shortName = Override.lit "tp")
    ∧ (∀ td out,
        process_gdas_grib tmpl store (addHours init td) (some (coreFieldMatchers epoch td))
          = .ok out →
        ∀ m ∈ out, m.validityDate = dateOf (addHours init td)
          ∧ m.validityTime = timeOf (addHours init td))
    ∧ (∀ td out,
        process_gdas_grib tmpl store (addHours init td) (some (tpFieldMatchers epoch td))
          = .ok out →
        ∀ m ∈ out, m.validityDate = dateOf (addHours init td)
          ∧ m.validityTime = timeOf (addHours init td)) := by
  refine ⟨⟨rfl, rfl⟩, ⟨rfl, rfl⟩, fun td => ⟨rfl, rfl⟩, ?_, ?_⟩
  · intro td out h
    exact process_gdas_grib_tags tmpl store (addHours init td)
      (some (coreFieldMatchers epoch td)) out h
  · intro td out h
    exact process_gdas_grib_tags tmpl store (addHours init td)
      (some (tpFieldMatchers epoch td)) out h

/-- Expected output of the first graphcast core-field call on the concrete
scenario: the five core fields of store 1, re-tagged to init time 1000. -/
def coreOut1 : List Message :=
  [{ shortName := "u", level := 500, levelType := "pl",
     validityDate := 0, validityTime := 1000, payload := [1, 1] },
   { shortName := "v", level := 850, levelType := "pl",
     validityDate := 0, validityTime := 1000, payload := [1, 2] },
   { shortName := "t", level := 1000, levelType := "pl",
     validityDate := 0, validityTime := 1000, payload := [1, 3] },
   { shortName := "q", level := 700, levelType := "pl",
     validityDate := 0, validityTime := 1000, payload := [1, 4] },
   { shortName := "z", level := 300, levelType := "pl",
     validityDate := 0, validityTime := 1000, payload := [1, 5] }]

/-- The first message of `coreOut1`. -/
def coreOut1Head : Message :=
  { shortName := "u", level := 500, levelType := "pl",
    validityDate := 0, validityTime := 1000, payload := [1, 1] }

theorem graphcast_lagged_policy_witness :
    coreOut1Head.validityDate = dateOf (addHours 1000 0)
    ∧ coreOut1Head.validityTime = timeOf (addHours 1000 0) :=
  (graphcast_lagged_policy (scenStore 1) (scenStore 2) 0 1000 scenTemplate
      (scenStore 1)).2.2.2.1 0 coreOut1 (by rfl) coreOut1Head
    (List.Mem.head _)

theorem process_gdas_grib_length (tmpl store : List Message) (target : Int)
    (mo : Option TemplateMatchers) (out : List Message)
    (h : process_gdas_grib tmpl store target mo = .ok out) :
    out.length = countCovered tmpl mo := by
  induction tmpl generalizing out with
  | nil =>
    simp only [process_gdas_grib, Except.ok.injEq] at h
    subst h
    rfl
  | cons t rest ih =>
    simp only [process_gdas_grib] at h
    by_cases hc : covers mo (descriptorOf t) = true
    · rw [if_pos hc] at h
      cases hm : matchMsg (descriptorOf t) store mo with
      | error e => rw [hm] at h; exact absurd h (by simp)
      | ok m =>
        rw [hm] at h
        cases hr : process_gdas_grib rest store target mo with
        | error e => rw [hr] at h; exact absurd h (by simp)
        | ok out2 =>
          rw [hr] at h
          simp only [Except.ok.injEq] at h
          subst h
          simp [countCovered, List.filter_cons, hc, ih out2 hr]
    · rw [if_neg hc] at h
      have := ih out h
      simp only [countCovered, List.filter_cons] at *
      simp [hc, this]

theorem assemble_length (tmpl : List Message) (sets : List MessageSet) (init : Int)
    (out : List Message) (h : assemble tmpl sets init = .ok out) :
    out.length = (sets.map (fun s => countCovered tmpl s.overrides)).sum := by
  induction sets generalizing out with
  | nil =>
    simp only [assemble, Except.ok.injEq] at h
    subst h
    rfl
  | cons s rest ih =>
    simp only [assemble] at h
    cases hp : process_gdas_grib tmpl s.store (addHours init s.offsetHours) s.overrides with
    | error e => rw [hp] at h; exact absurd h (by simp)
    | ok out1 =>
      rw [hp] at h
      cases hr : assemble tmpl rest init with
      | error e => rw [hr] at h; exact absurd h (by simp)
      | ok out2 =>
        rw [hr] at h
        simp only [Except.ok.injEq] at h
        subst h
        simp [process_gdas_grib_length tmpl s.store _ s.overrides out1 hp, ih out2 hr]

/-- A message-set configuration in which every template descriptor is
covered twice: the same no-override store declared as two sets. -/
def doubleCoverSets : List MessageSet :=
  [{ store := scenStore 1, offsetHours := 0, overrides := none },
   { store := scenStore 1, offsetHours := 0, overrides := none }]

/-- C4 counterexample: assembly performs no coverage validation.  With the
concrete template, the configuration `doubleCoverSets` covers every
descriptor exactly twice, yet `assemble` succeeds and returns twelve
messages (each descriptor matched once per covering set) instead of
failing; and the empty configuration leaves every descriptor uncovered,
yet `assemble` succeeds with an empty output instead of failing.  No
coverage-check error exists anywhere in the engine, so the claimed
AmbiguousCoverageError and IncompleteCoverageError are never raised. -/
theorem coverage_unchecked_counterexample :
    coverCount doubleCoverSets (descriptorOf (scenTemplate.headD coreOut1Head)) = 2
    ∧ (assemble scenTemplate doubleCoverSets 0).map List.length = .ok 12
    ∧ coverCount [] (descriptorOf (scenTemplate.headD coreOut1Head)) = 0
    ∧ assemble scenTemplate [] 0 = .ok [] := by
  refine ⟨rfl, ?_, rfl, rfl⟩
  rfl

/-- C4 as amended: the assembly performs no coverage validation at all.
Whenever it succeeds, each set contributes exactly one message per
descriptor it covers, so a descriptor covered by several sets is emitted
once per covering set and an uncovered descriptor is silently omitted; the
only failures are per-descriptor match errors, not coverage errors. -/
theorem assemble_output_counts_coverage (tmpl : List Message) (sets : List MessageSet)
    (init : Int) (out : List Message) (h : assemble tmpl sets init = .ok out) :
    out.length = (sets.map (fun s => countCovered tmpl s.overrides)).sum :=
  assemble_length tmpl sets init out h

theorem assemble_output_counts_coverage_witness :
    ∃ out, assemble scenTemplate doubleCoverSets 0 = .ok out
      ∧ out.length
          = (doubleCoverSets.map (fun s => countCovered scenTemplate s.overrides)).sum :=
  ⟨(assemble scenTemplate doubleCoverSets 0).toOption.getD [], by rfl,
   assemble_output_counts_coverage scenTemplate doubleCoverSets 0
     ((assemble scenTemplate doubleCoverSets 0).toOption.getD []) (by rfl)⟩

/-- Expected output of the second graphcast core-field call on the
concrete scenario: the five core fields of store 2, re-tagged to the
6-hour-lagged init time. -/
def coreOut2 : List Message :=
  [{ shortName := "u", level := 500, levelType := "pl",
     validityDate := 0, validityTime := 640, payload := [2, 1] },
   { shortName := "v", level := 850, levelType := "pl",
     validityDate := 0, validityTime := 640, payload := [2, 2] },
   { shortName := "t", level := 1000, levelType := "pl",
     validityDate := 0, validityTime := 640, payload := [2, 3] },
   { shortName := "q", level := 700, levelType := "pl",
     validityDate := 0, validityTime := 640, payload := [2, 4] },
   { shortName := "z", level := 300, levelType := "pl",
     validityDate := 0, validityTime := 640, payload := [2, 5] }]

/-- Expected output of the graphcast precipitation calls on the concrete
scenario: the "tp" field of store 1 re-tagged at -6h and the "tp" field of
store 2 re-tagged at -18h. -/
def tpOut : List Message :=
  [{ shortName := "tp", level := 0, levelType := "sfc",
     validityDate := 0, validityTime := 640, payload := [1, 6] },
   { shortName := "tp", level := 0, levelType := "sfc",
     validityDate := -1, validityTime := 1360, payload := [2, 6] }]

/-- C2 counterexample: on the concrete graphcast scenario (five core
descriptors plus one "tp" descriptor, two sources), the two declared sets
contribute ten and two messages respectively, not six and six as the claim
states: the core set yields five messages per offset and the precipitation
set one per offset. -/
theorem scenarioB_grouping_counterexample :
    (assemble scenTemplate (graphcastCoreSets [scenStore 1, scenStore 2] 0) 1000).map
        List.length = .ok 10
    ∧ (assemble scenTemplate (graphcastTpSets [scenStore 1, scenStore 2] 0) 1000).map
        List.length = .ok 2
    ∧ ¬((assemble scenTemplate (graphcastCoreSets [scenStore 1, scenStore 2] 0) 1000).map
        List.length = .ok 6) := by
  refine ⟨rfl, rfl, ?_⟩
  intro h
  rw [show (assemble scenTemplate (graphcastCoreSets [scenStore 1, scenStore 2] 0) 1000).map
      List.length = .ok 10 from rfl] at h
  simp at h

/-- C2 as amended: on the concrete graphcast scenario, `assemble` returns
12 messages total across the two declared sets, grouped 10 + 2 (each of
the two source files contributes six messages, but the output groups by
declared set, not by source), the output equals the concatenation of the
sets' partial results in the order the caller declared them, and every
message carries the validity tag of model_init plus its set's offset. -/
theorem scenarioB_assembles_ten_plus_two :
    graphcastSubset scenTemplate [scenStore 1, scenStore 2] 1000 0
        = .ok (coreOut1 ++ coreOut2 ++ tpOut)
    ∧ assemble scenTemplate (graphcastCoreSets [scenStore 1, scenStore 2] 0) 1000
        = .ok (coreOut1 ++ coreOut2)
    ∧ assemble scenTemplate (graphcastTpSets [scenStore 1, scenStore 2] 0) 1000
        = .ok tpOut
    ∧ (coreOut1 ++ coreOut2).length = 10 ∧ tpOut.length = 2
    ∧ (coreOut1 ++ coreOut2 ++ tpOut).length = 12
    ∧ coreOut1.map Message.validityTime = List.replicate 5 (timeOf (addHours 1000 0))
    ∧ coreOut2.map Message.validityTime = List.replicate 5 (timeOf (addHours 1000 (-6)))
    ∧ tpOut.map Message.validityTime
        = [timeOf (addHours 1000 (-6)), timeOf (addHours 1000 (-18))] :=
  ⟨rfl, rfl, rfl, rfl, rfl, rfl, rfl, rfl, rfl⟩

/-- C8: for panguweather and fourcastnetv2-small, preparation fetches
exactly one source file, for model_init plus a zero offset, and runs one
subsetting pass through a single message set with zero offset and no
overrides; assembling that single set is exactly one `process_gdas_grib`
pass with no extra matchers. -/
theorem single_source_one_set_zero_offset (init epoch : Int)
    (sources : List (List Message)) (tmpl store : List Message) :
    (sourceTimes "panguweather" init = .ok [init]
      ∧ sourceTimes "fourcastnetv2-small" init = .ok [init])
    ∧ (subsetCalls "panguweather" sources epoch
        = .ok [{ store := sources.headD [], offsetHours := 0, overrides := none }]
      ∧ subsetCalls "fourcastnetv2-small" sources epoch
        = .ok [{ store := sources.headD [], offsetHours := 0, overrides := none }])
    ∧ assemble tmpl [{ store := store, offsetHours := 0, overrides := none }] init
        = process_gdas_grib tmpl store init none := by
  refine ⟨⟨?_, ?_⟩, ⟨?_, ?_⟩, ?_⟩
  · simp [sourceTimes, model_init_tds, addHours, Except.map]
  · simp [sourceTimes, model_init_tds, addHours, Except.map]
  · simp [subsetCalls]
  · simp [subsetCalls]
  · rw [show assemble tmpl [{ store := store, offsetHours := 0, overrides := none }] init
        = (match process_gdas_grib tmpl store (addHours init 0) none with
           | .error e => .error e
           | .ok out =>
             match (Except.ok [] : Except MatchErr (List Message)) with
             | .error e => .error e
             | .ok outRest => .ok (out ++ outRest)) from rfl]
    rw [show addHours init 0 = init from by simp [addHours]]
    cases process_gdas_grib tmpl store init none with
    | error e => rfl
    | ok out => simp

/-- C6: if the target processed output file already exists and force is
false, `prepare_gfs_analysis` returns without performing any download,
decode, match, or write work, and leaves the output file and all other
state unchanged; the existence check precedes all decode/match work.
The template file is assumed present (otherwise the function raises its
template ValueError before reaching the check, still with no work done),
and the base directory containing the existing output necessarily
exists. -/
theorem short_circuit_skips_all_work (model : String) (init : Int)
    (tmpl : List Message) (storeOf : Int → List Message) (epoch : Int) (st : PrepState)
    (hT : st.templateExists = true) (hO : st.outputExists = true)
    (hB : st.baseDirExists = true) :
    prepare_gfs_analysis model init false tmpl storeOf epoch st = (.skipped, noWork, st) := by
  cases st
  simp_all [prepare_gfs_analysis]

/-- Concrete filesystem state with the processed output already present. -/
def existingState : PrepState :=
  { templateExists := true, baseDirExists := true, outputExists := true,
    outputContent := [7, 7] }

theorem short_circuit_skips_all_work_witness :
    prepare_gfs_analysis "graphcast" 1000 false scenTemplate (fun _ => scenStore 1) 0
        existingState = (.skipped, noWork, existingState) :=
  short_circuit_skips_all_work "graphcast" 1000 scenTemplate (fun _ => scenStore 1) 0
    existingState rfl rfl rfl

theorem applyOps_append (fs : String → List Nat) (l1 l2 : List FileOp) :
    applyOps fs (l1 ++ l2) = applyOps (applyOps fs l1) l2 := by
  induction l1 generalizing fs with
  | nil => rfl
  | cons op rest ih => simp [applyOps, ih]

theorem applyOps_write_run (l : List Message) (fs : String → List Nat) (working q : String) :
    applyOps fs (l.map (fun g => FileOp.write working g.payload)) q
      = if q = working then fs working ++ writeAll l else fs q := by
  induction l generalizing fs with
  | nil =>
    by_cases h : q = working <;> simp [applyOps, writeAll, h]
  | cons g rest ih =>
    simp only [List.map_cons, applyOps, applyOp]
    rw [ih]
    by_cases h : q = working
    · subst h
      simp [writeAll]
    · simp [h]

/-- C7: the engine publishes its output via a non-atomic write-then-copy.
Its operation trace is the per-message writes to the local working file
followed by a single copy to the final cached path: every operation is a
plain write or a copy (no fsync, no rename, and no removal, hence no
cleanup of partial output); if the run is interrupted after any prefix of
the trace, the working file holds exactly the serialized prefix written so
far (a partial file remains) while the final path is untouched until the
concluding copy, which publishes the whole working file. -/
theorem publish_write_then_copy_nonatomic (working final : String) (msgs : List Message)
    (fs : String → List Nat) (k : Nat) (hk : k ≤ msgs.length) (hne : working ≠ final)
    (hw : fs working = []) :
    (∀ op ∈ publishOps working final msgs, op.isWriteOrCopy = true)
    ∧ (publishOps working final msgs).getLast? = some (.copy working final)
    ∧ (∀ op ∈ (publishOps working final msgs).dropLast, ∃ bs, op = .write working bs)
    ∧ applyOps fs ((publishOps working final msgs).take k) working = writeAll (msgs.take k)
    ∧ applyOps fs ((publishOps working final msgs).take k) final = fs final
    ∧ applyOps fs (publishOps working final msgs) final = writeAll msgs := by
  have htake : (publishOps working final msgs).take k
      = (msgs.take k).map (fun g => FileOp.write working g.payload) := by
    rw [publishOps, List.take_append_of_le_length (by simpa using hk), List.map_take]
  refine ⟨?_, ?_, ?_, ?_, ?_, ?_⟩
  · intro op hop
    rcases List.mem_append.mp hop with hmem | hmem
    · rcases List.mem_map.mp hmem with ⟨g, _, hg⟩
      rw [← hg]
      rfl
    · rcases List.mem_singleton.mp hmem with rfl
      rfl
  · rw [publishOps, List.getLast?_concat]
  · intro op hop
    rw [publishOps, List.dropLast_concat] at hop
    rcases List.mem_map.mp hop with ⟨g, _, hg⟩
    exact ⟨g.payload, hg.symm⟩
  · rw [htake, applyOps_write_run, if_pos rfl, hw, List.nil_append]
  · rw [htake, applyOps_write_run, if_neg (fun h => hne h.symm)]
  · rw [publishOps, applyOps_append]
    show (if final = final then
        applyOps fs (List.map (fun g => FileOp.write working g.payload) msgs) working
      else applyOps fs (List.map (fun g => FileOp.write working g.payload) msgs) final)
      = writeAll msgs
    rw [if_pos rfl, applyOps_write_run, if_pos rfl, hw, List.nil_append]

theorem publish_write_then_copy_nonatomic_witness :
    applyOps (fun _ => []) ((publishOps "work.grib" "final.grib" (scenStore 1)).take 3)
      "work.grib" = writeAll ((scenStore 1).take 3) :=
  (publish_write_then_copy_nonatomic "work.grib" "final.grib" (scenStore 1) (fun _ => [])
    3 (by decide) (by decide) rfl).2.2.2.1

/-- Concrete filesystem state with the template present and no output
produced yet. -/
def freshState : PrepState :=
  { templateExists := true, baseDirExists := false, outputExists := false,
    outputContent := [] }

/-- C10 counterexample: the preparation function does not always reject an
unsupported model name, and when it does reject one the rejection is not
before all I/O.  With the unsupported name "hurricane-ai": if the target
output already exists and force is false, preparation returns the
short-circuit success without raising any ValueError; and if the output
does not exist, preparation does fail with the unknown-model ValueError,
but only after creating the base directory (filesystem I/O preceding the
failure). -/
theorem model_validation_counterexample :
    prepare_gfs_analysis "hurricane-ai" 0 false [] (fun _ => []) 0 existingState
      = (.skipped, noWork, existingState)
    ∧ (prepare_gfs_analysis "hurricane-ai" 0 false [] (fun _ => []) 0 freshState).1
      = .unknownModel
    ∧ (prepare_gfs_analysis "hurricane-ai" 0 false [] (fun _ => []) 0
        freshState).2.2.baseDirExists = true
    ∧ freshState.baseDirExists = false :=
  ⟨rfl, rfl, rfl, rfl⟩

/-- C10 as amended: the local entrypoint rejects a model name outside
SUPPORTED_AI_MODELS with a ValueError before dispatching any remote call;
and the preparation function, whenever its template exists and it does not
short-circuit on an already-existing output, rejects a name other than
panguweather, fourcastnetv2-small and graphcast with a ValueError before
any download, decode/match, or write work - though after creating the base
directory. -/
theorem model_validation_before_dispatch (model : String) (mkT rC rF : Bool)
    (init epoch : Int) (tmpl : List Message) (storeOf : Int → List Message)
    (st : PrepState) (hm : model ∉ SUPPORTED_AI_MODELS)
    (hT : st.templateExists = true) (hO : st.outputExists = false) :
    mainEntry model mkT rC rF
      = .error ("User provided model_name " ++ model ++ " is not supported")
    ∧ prepare_gfs_analysis model init false tmpl storeOf epoch st
      = (.unknownModel, noWork, { st with baseDirExists := true }) := by
  have hc : SUPPORTED_AI_MODELS.contains model = false := by simpa using hm
  simp only [SUPPORTED_AI_MODELS, List.mem_cons, List.not_mem_nil, or_false] at hm
  push_neg at hm
  obtain ⟨h1, h2, h3⟩ := hm
  constructor
  · simp only [mainEntry, hc]
    rfl
  · simp [prepare_gfs_analysis, hT, hO, model_init_tds, h1, h2, h3]

theorem model_validation_before_dispatch_witness :
    mainEntry "hurricane-ai" true true true
      = .error ("User provided model_name " ++ "hurricane-ai" ++ " is not supported")
    ∧ prepare_gfs_analysis "hurricane-ai" 0 false [] (fun _ => []) 0 freshState
      = (.unknownModel, noWork, { freshState with baseDirExists := true }) :=
  model_validation_before_dispatch "hurricane-ai" true true true 0 0 [] (fun _ => [])
    freshState (by decide) rfl rfl
